import Mathlib

/-!
# Verification of the NERIES web-service client (obspy.neries.client)

Shallow embedding of `src/trunk/obspy.neries/obspy/neries/client.py`.
The embedding covers:

* the keyword-mapping decorator `_mapKwargs` and the `MAP` table (lines 35-70);
* the depth sign conventions of `Client._json2list` (line 166) and
  `Client.getEvents` (lines 248-252);
* the waveform-retrieval workflow `Client.saveWaveform` (lines 510-573),
  modelled as a pure function over a scripted environment: the remote
  service's responses (`dataRequest`, the sequence of `checkStatus`
  responses, the `dataRetrieve` URL list, per-URL download results and the
  `purgeData` outcome) are inputs, and the observable trace (RPC calls
  made, identifier lists passed, bytes written to the destination sink,
  file-handle open/close events, and the final outcome) is the output;
* the `_RequestMSEEDPlugin` envelope hook (lines 73-80, 531-538);
* the parse-failure fallback of `Client.getWaveform` (lines 450-467).
-/

namespace Neries

/-- A primitive value occurring in a keyword dictionary (the Python code
passes strings and numbers). -/
inductive Val
  | str (s : String)
  | int (n : Int)
deriving DecidableEq, Repr

/-- The forward mapping table `MAP` (client.py lines 35-45): public
parameter name to remote query-field name. -/
def MAP : List (String × String) :=
  [("min_datetime", "dateMin"), ("max_datetime", "dateMax"),
   ("min_latitude", "latMin"), ("max_latitude", "latMax"),
   ("min_longitude", "lonMin"), ("max_longitude", "lonMax"),
   ("min_depth", "depthMin"), ("max_depth", "depthMax"),
   ("min_magnitude", "magMin"), ("max_magnitude", "magMax"),
   ("magnitude_type", "magType"), ("author", "auth"),
   ("max_results", "limit"), ("sort_by", "sort"), ("sort_direction", "dir"),
   ("format", "format"), ("datetime", "datetime"), ("depth", "depth"),
   ("flynn_region", "flynn_region"), ("latitude", "lat"),
   ("longitude", "lon"), ("magnitude", "mag"), ("origin_id", "orid"),
   ("event_id", "unid")]

/-- The default entries `_mapKwargs` seeds `new_kwargs` with
(client.py line 63). -/
def defaultKwargs : List (String × Val) :=
  [("sort", Val.str "datetime"), ("dir", Val.str "ASC"),
   ("limit", Val.int 100), ("format", Val.str "list")]

/-- Dictionary assignment `d[k] = v` on an association list: replace the
first binding of `k`, else append. -/
def insertKw : List (String × Val) → String → Val → List (String × Val)
  | [], k, v => [(k, v)]
  | kv :: rest, k, v =>
    if kv.1 == k then (k, v) :: rest else kv :: insertKw rest k v

/-- The wrapper body of `_mapKwargs` (client.py lines 61-68): start from
the defaults and, for each caller keyword that occurs in `MAP`, store its
value under the mapped remote name.  Keywords outside `MAP` are not
copied. -/
def mapKwargs (kwargs : List (String × Val)) : List (String × Val) :=
  kwargs.foldl
    (fun acc kv =>
      match MAP.lookup kv.1 with
      | some remoteKey => insertKw acc remoteKey kv.2
      | none => acc)
    defaultKwargs

/-- Depth normalization in `Client._json2list` (client.py line 166):
`event['depth'] = -event['depth']` — remote positive-down depth becomes
canonical negative-down. -/
def json2listDepth (d : Int) : Int := -d

/-- Outbound depth-bound handling in `Client.getEvents` (client.py lines
249-252): `if kwargs.get("depthMin"): kwargs['depthMin'] = -...` — the
bound is negated only when present and truthy (nonzero); the same code
shape handles `depthMax`.  `none` models an absent key. -/
def depthBoundOutbound (d : Option Int) : Option Int :=
  match d with
  | none => none
  | some v => if v = 0 then some v else some (-v)

/-- `listStartsWith needle hay` decides whether `needle` is an initial
segment of `hay`. -/
def listStartsWith : List Char → List Char → Bool
  | [], _ => true
  | _ :: _, [] => false
  | a :: as, b :: bs => a == b && listStartsWith as bs

/-- Helper for Python's substring test `needle in hay` over the character
list of the haystack. -/
def strContainsAux (needle : List Char) : List Char → Bool
  | [] => listStartsWith needle []
  | c :: cs => listStartsWith needle (c :: cs) || strContainsAux needle cs

/-- Python's substring containment `needle in hay` on strings. -/
def strContains (needle hay : String) : Bool :=
  strContainsAux needle.data hay.data

/-- One `RoutedRequest` element of a SOAP response: its opaque identifier
`_Id`, the `ReadyFlag` string, the `StatusDescription` string and the
`Fulfillment` percentage (client.py lines 540, 546, 552-554). -/
structure RoutedRequest where
  Id : String
  ReadyFlag : String
  StatusDescription : String
  Fulfillment : Nat
deriving DecidableEq, Repr

/-- The scripted remote environment `saveWaveform` runs against: each RPC
and each download URL has a predetermined response. -/
structure Env where
  /-- the `RoutedRequest` list of the `dataRequest` response (line 540) -/
  dataRequestResp : List RoutedRequest
  /-- successive `checkStatus` responses consumed by the polling loop
  (lines 544-550) -/
  checkStatusScript : List (List RoutedRequest)
  /-- the download URLs extracted from the `dataRetrieve` response
  (line 559) -/
  dataRetrieveResp : List String
  /-- `urllib2.urlopen(url).read()` for each URL (line 569): the payload
  bytes, or an error that the code would propagate -/
  download : String → Except Unit (List Nat)
  /-- whether the `purgeData` call (line 573) succeeds -/
  purgeOk : Bool

/-- The destination sink argument `filename`: a path string or an open
file handle (client.py lines 561-564). -/
inductive Dest
  | path (name : String)
  | handle
deriving DecidableEq, Repr

/-- How a `saveWaveform` run ends: normal return, a download exception
propagating out of the write loop, a `purgeData` exception propagating,
or the polling loop never exiting within the script. -/
inductive Outcome
  | ok
  | errDownload (url : String)
  | errPurge
  | stuck
deriving DecidableEq, Repr

/-- The observable trace of one `saveWaveform` run.  `rpcCalls` lists the
SOAP operations invoked in order, each paired with whether the
`_RequestMSEEDPlugin` hook was installed during that call.  `opened` and
`closed` record whether `open(filename, "wb")` and `fh.close()` were
executed. -/
structure SaveResult where
  rpcCalls : List (String × Bool)
  checkStatusCalls : List (List String)
  retrieveCalls : List (List String)
  purgeCalls : List (List String)
  written : List Nat
  opened : Bool
  closed : Bool
  outcome : Outcome
deriving DecidableEq, Repr

/-- The polling loop (client.py lines 544-550): consume scripted
`checkStatus` responses while `"false"` occurs among the `ReadyFlag`s;
return the number of calls made and the response that broke the loop, or
`none` if the script is exhausted first (the real loop would keep
polling). -/
def pollLoop : List (List RoutedRequest) → Option (Nat × List RoutedRequest)
  | [] => none
  | resp :: rest =>
    if (resp.map RoutedRequest.ReadyFlag).any (fun s => s == "false") then
      (pollLoop rest).map (fun p => (p.1 + 1, p.2))
    else
      some (1, resp)

/-- The fulfillment filter (client.py lines 552-554): keep a routed
request when `'Status: OK' in r.StatusDescription and
r.Fulfillment == 100`. -/
def isFulfilled (r : RoutedRequest) : Bool :=
  strContains "Status: OK" r.StatusDescription && (r.Fulfillment == 100)

/-- The identifier list kept after filtering (client.py lines 552-554). -/
def fulfilledIds (resp : List RoutedRequest) : List String :=
  (resp.filter isFulfilled).map RoutedRequest.Id

/-- The download/write loop (client.py lines 568-569): fetch each URL in
order and append its bytes to the sink; on the first failing URL the
exception aborts the loop, keeping the bytes already written.  Returns
the bytes written and the failing URL, if any. -/
def downloadAll (dl : String → Except Unit (List Nat)) :
    List String → List Nat × Option String
  | [] => ([], none)
  | url :: rest =>
    match dl url with
    | Except.error _ => ([], some url)
    | Except.ok payload =>
      let r := downloadAll dl rest
      (payload ++ r.1, r.2)

/-- `isinstance(filename, basestring)` (client.py lines 561, 570): the
handle is owned by `saveWaveform` exactly when the destination was given
as a path string. -/
def ownsHandle : Dest → Bool
  | Dest.path _ => true
  | Dest.handle => false

/-- `Client.saveWaveform` (client.py lines 510-573) over a scripted
environment.  Control flow mirrors the source: extract `request_ids` from
the `dataRequest` response and return if empty (540-542); poll
`checkStatus` until no `ReadyFlag` is `"false"` (544-550); filter to
fulfilled identifiers and return if none remain (551-556); call
`dataRetrieve` (558); open a file when given a path (561-564); download
each URL and write its bytes (568-569); close only a self-opened handle
(570-571); call `purgeData` (573).  The MSEED plugin is installed for the
`dataRequest` call only (531-538). -/
def saveWaveform (env : Env) (dest : Dest) (format : String) : SaveResult :=
  let mseed := format == "MSEED"
  let request_ids := env.dataRequestResp.map RoutedRequest.Id
  if request_ids.isEmpty then
    { rpcCalls := [("dataRequest", mseed)], checkStatusCalls := [],
      retrieveCalls := [], purgeCalls := [], written := [],
      opened := false, closed := false, outcome := Outcome.ok }
  else
    match pollLoop env.checkStatusScript with
    | none =>
      { rpcCalls := ("dataRequest", mseed) ::
          env.checkStatusScript.map (fun _ => ("checkStatus", false)),
        checkStatusCalls := env.checkStatusScript.map (fun _ => request_ids),
        retrieveCalls := [], purgeCalls := [], written := [],
        opened := false, closed := false, outcome := Outcome.stuck }
    | some (n, lastResp) =>
      let fulfilled := fulfilledIds lastResp
      let baseCalls := ("dataRequest", mseed) ::
        List.replicate n (("checkStatus", false) : String × Bool)
      let css := List.replicate n request_ids
      if fulfilled.isEmpty then
        { rpcCalls := baseCalls, checkStatusCalls := css,
          retrieveCalls := [], purgeCalls := [], written := [],
          opened := false, closed := false, outcome := Outcome.ok }
      else
        let dres := downloadAll env.download env.dataRetrieveResp
        match dres.2 with
        | some u =>
          { rpcCalls := baseCalls ++ [("dataRetrieve", false)],
            checkStatusCalls := css, retrieveCalls := [fulfilled],
            purgeCalls := [], written := dres.1,
            opened := ownsHandle dest, closed := false,
            outcome := Outcome.errDownload u }
        | none =>
          { rpcCalls := baseCalls ++
              [("dataRetrieve", false), ("purgeData", false)],
            checkStatusCalls := css, retrieveCalls := [fulfilled],
            purgeCalls := [fulfilled], written := dres.1,
            opened := ownsHandle dest, closed := ownsHandle dest,
            outcome := if env.purgeOk then Outcome.ok else Outcome.errPurge }

/-- `_RequestMSEEDPlugin.marshalled` (client.py lines 77-80): append the
`DataFormat=MSEED` attribute to the body element only when it is the
`dataRequest` element. -/
def requestMSEEDPlugin (bodyName : String)
    (attrs : List (String × String)) : List (String × String) :=
  if bodyName == "dataRequest" then attrs ++ [("DataFormat", "MSEED")]
  else attrs

/-- Attributes on the marshalled body element of one RPC call, given the
operation name and whether the plugin was installed during the call: the
envelope starts with no extra attributes and each installed plugin's
`marshalled` hook runs on it. -/
def envelopeAttrs (call : String × Bool) : List (String × String) :=
  if call.2 then requestMSEEDPlugin call.1 [] else []

/-- A waveform trace with a time window, the unit of an obspy `Stream`.
Only the empty/nonempty distinction matters for the claims here. -/
structure Trace where
  startTime : Int
  endTime : Int
deriving DecidableEq, Repr

/-- Modelled from the spec: `Stream.trim` of obspy.core (outside src/),
which restricts the stream to the requested window; on an empty stream it
yields an empty stream. -/
def streamTrim (s : List Trace) (t1 t2 : Int) : List Trace :=
  s.filter (fun tr => decide (t1 ≤ tr.endTime) && decide (tr.startTime ≤ t2))

/-- `Client.getWaveform` tail (client.py lines 455-467): try to read the
temporary file; any read failure is swallowed by the bare `except` and
replaced with an empty `Stream()`; the (possibly empty) stream is trimmed
to the requested window and returned.  `readResult` is the outcome of
`read(tf.name, 'MSEED')`. -/
def getWaveformModel (readResult : Except Unit (List Trace))
    (t1 t2 : Int) : List Trace :=
  let stream : List Trace :=
    match readResult with
    | Except.ok s => s
    | Except.error _ => []
  streamTrim stream t1 t2

/-! ## Helper lemmas on association lists -/

theorem lookup_insertKw_self (m : List (String × Val)) (k : String) (v : Val) :
    (insertKw m k v).lookup k = some v := by
  induction m with
  | nil => simp [insertKw, List.lookup]
  | cons kv rest ih =>
    obtain ⟨a, b⟩ := kv
    by_cases h : a = k
    · simp [insertKw, h, List.lookup]
    · have h2 : (a == k) = false := by simp [h]
      have h3 : (k == a) = false := by simp [Ne.symm h]
      simp [insertKw, h2, List.lookup, h3, ih]

theorem lookup_insertKw_ne (m : List (String × Val)) (k k' : String) (v : Val)
    (h : k' ≠ k) : (insertKw m k v).lookup k' = m.lookup k' := by
  induction m with
  | nil =>
    have h0 : (k' == k) = false := by simp [h]
    simp [insertKw, List.lookup, h0]
  | cons kv rest ih =>
    obtain ⟨a, b⟩ := kv
    by_cases ha : a = k
    · subst ha
      have h0 : (k' == a) = false := by simp [h]
      simp [insertKw, List.lookup, h0]
    · have h2 : (a == k) = false := by simp [ha]
      by_cases hk : k' = a
      · simp [insertKw, h2, List.lookup, hk]
      · have h3 : (k' == a) = false := by simp [hk]
        simp [insertKw, h2, List.lookup, h3, ih]

theorem lookup_some_mem_snd (l : List (String × String)) (k rk : String)
    (h : l.lookup k = some rk) : rk ∈ l.map Prod.snd := by
  induction l with
  | nil => simp [List.lookup] at h
  | cons kv rest ih =>
    obtain ⟨a, b⟩ := kv
    by_cases hk : k = a
    · simp [List.lookup, hk] at h
      simp [h]
    · have h3 : (k == a) = false := by simp [hk]
      simp [List.lookup, h3] at h
      simp [ih h]

theorem lookup_none_of_not_mem_fst (l : List (String × Val)) (k : String)
    (h : k ∉ l.map Prod.fst) : l.lookup k = none := by
  induction l with
  | nil => simp [List.lookup]
  | cons kv rest ih =>
    obtain ⟨a, b⟩ := kv
    have hka : k ≠ a := by
      intro he; exact h (by simp [he])
    have h3 : (k == a) = false := by simp [hka]
    have hr : k ∉ rest.map Prod.fst := by
      intro hm; exact h (by simp [hm])
    simp [List.lookup, h3, ih hr]

theorem mapKwargs_foldl_lookup_none (kwargs : List (String × Val))
    (k : String) (hval : k ∉ MAP.map Prod.snd) :
    ∀ acc : List (String × Val), acc.lookup k = none →
      (kwargs.foldl
        (fun acc kv =>
          match MAP.lookup kv.1 with
          | some remoteKey => insertKw acc remoteKey kv.2
          | none => acc)
        acc).lookup k = none := by
  induction kwargs with
  | nil => intro acc hacc; simpa using hacc
  | cons kv rest ih =>
    intro acc hacc
    simp only [List.foldl_cons]
    cases hm : MAP.lookup kv.1 with
    | none => simpa [hm] using ih acc hacc
    | some rk =>
      have hrk : rk ∈ MAP.map Prod.snd := lookup_some_mem_snd MAP kv.1 rk hm
      have hne : k ≠ rk := fun he => hval (he ▸ hrk)
      have : (insertKw acc rk kv.2).lookup k = none := by
        rw [lookup_insertKw_ne acc rk k kv.2 hne]; exact hacc
      simpa [hm] using ih (insertKw acc rk kv.2) this

/-! ## Helper lemmas on the saveWaveform model -/

theorem anyFalse_eq_false_of_all_true (resp : List RoutedRequest)
    (h : ∀ r ∈ resp, r.ReadyFlag = "true") :
    (resp.map RoutedRequest.ReadyFlag).any (fun s => s == "false") = false := by
  rw [Bool.eq_false_iff]
  intro hany
  rw [List.any_eq_true] at hany
  obtain ⟨s, hs, hbeq⟩ := hany
  rw [List.mem_map] at hs
  obtain ⟨r, hr, rfl⟩ := hs
  rw [h r hr] at hbeq
  exact absurd hbeq (by decide)

theorem anyFalse_eq_true_of_not_all_true (p : List RoutedRequest)
    (hTV : ∀ r ∈ p, r.ReadyFlag = "true" ∨ r.ReadyFlag = "false")
    (hex : ∃ r ∈ p, r.ReadyFlag ≠ "true") :
    (p.map RoutedRequest.ReadyFlag).any (fun s => s == "false") = true := by
  obtain ⟨r, hr, hne⟩ := hex
  have hf : r.ReadyFlag = "false" := by
    rcases hTV r hr with h | h
    · exact absurd h hne
    · exact h
  rw [List.any_eq_true]
  refine ⟨"false", ?_, by decide⟩
  rw [List.mem_map]
  exact ⟨r, hr, hf⟩

theorem pollLoop_append (pre : List (List RoutedRequest))
    (resp : List RoutedRequest) (rest : List (List RoutedRequest))
    (hpre : ∀ p ∈ pre,
      (p.map RoutedRequest.ReadyFlag).any (fun s => s == "false") = true)
    (hresp :
      (resp.map RoutedRequest.ReadyFlag).any (fun s => s == "false") = false) :
    pollLoop (pre ++ resp :: rest) = some (pre.length + 1, resp) := by
  induction pre with
  | nil => simp [pollLoop, hresp]
  | cons p pre ih =>
    have hp := hpre p (by simp)
    have ih2 := ih (fun q hq => hpre q (by simp [hq]))
    simp [pollLoop, hp, ih2]

theorem pollLoop_none_of_all_have_false (script : List (List RoutedRequest))
    (h : ∀ p ∈ script,
      (p.map RoutedRequest.ReadyFlag).any (fun s => s == "false") = true) :
    pollLoop script = none := by
  induction script with
  | nil => rfl
  | cons p rest ih =>
    have hp := h p (by simp)
    have ih2 := ih (fun q hq => h q (by simp [hq]))
    simp [pollLoop, hp, ih2]

theorem map_Id_isEmpty_eq_false (l : List RoutedRequest) (h : l ≠ []) :
    (l.map RoutedRequest.Id).isEmpty = false := by
  cases l with
  | nil => exact absurd rfl h
  | cons a t => rfl

theorem downloadAll_all_ok (dl : String → Except Unit (List Nat))
    (payload : String → List Nat) (urls : List String)
    (h : ∀ url ∈ urls, dl url = Except.ok (payload url)) :
    downloadAll dl urls = ((urls.map payload).flatten, none) := by
  induction urls with
  | nil => simp [downloadAll]
  | cons u rest ih =>
    have hu := h u (by simp)
    have ih2 := ih (fun q hq => h q (by simp [hq]))
    simp [downloadAll, hu, ih2]

/-- Shape of a run that reaches the download phase and downloads
everything successfully. -/
theorem saveWaveform_success (env : Env) (dest : Dest) (format : String)
    (n : Nat) (lastResp : List RoutedRequest) (payload : String → List Nat)
    (hids : env.dataRequestResp ≠ [])
    (hpoll : pollLoop env.checkStatusScript = some (n, lastResp))
    (hful : fulfilledIds lastResp ≠ [])
    (hdl : ∀ url ∈ env.dataRetrieveResp,
      env.download url = Except.ok (payload url)) :
    saveWaveform env dest format =
      { rpcCalls := ("dataRequest", format == "MSEED") ::
          (List.replicate n (("checkStatus", false) : String × Bool) ++
            [("dataRetrieve", false), ("purgeData", false)]),
        checkStatusCalls :=
          List.replicate n (env.dataRequestResp.map RoutedRequest.Id),
        retrieveCalls := [fulfilledIds lastResp],
        purgeCalls := [fulfilledIds lastResp],
        written := (env.dataRetrieveResp.map payload).flatten,
        opened := ownsHandle dest, closed := ownsHandle dest,
        outcome := if env.purgeOk then Outcome.ok else Outcome.errPurge } := by
  have hie := map_Id_isEmpty_eq_false env.dataRequestResp hids
  have hfe : (fulfilledIds lastResp).isEmpty = false := by
    cases hh : fulfilledIds lastResp with
    | nil => exact absurd hh hful
    | cons a t => rfl
  have hdla := downloadAll_all_ok env.download payload env.dataRetrieveResp hdl
  simp [saveWaveform, hie, hpoll, hfe, hdla]

/-- Shape of a run that reaches the download phase and hits a failing
URL: the bytes already downloaded are written, the handle is not closed,
no purge call is made, and the download error propagates. -/
theorem saveWaveform_download_failure (env : Env) (dest : Dest)
    (format : String) (n : Nat) (lastResp : List RoutedRequest) (u : String)
    (hids : env.dataRequestResp ≠ [])
    (hpoll : pollLoop env.checkStatusScript = some (n, lastResp))
    (hful : fulfilledIds lastResp ≠ [])
    (hfail : (downloadAll env.download env.dataRetrieveResp).2 = some u) :
    saveWaveform env dest format =
      { rpcCalls := ("dataRequest", format == "MSEED") ::
          (List.replicate n (("checkStatus", false) : String × Bool) ++
            [("dataRetrieve", false)]),
        checkStatusCalls :=
          List.replicate n (env.dataRequestResp.map RoutedRequest.Id),
        retrieveCalls := [fulfilledIds lastResp],
        purgeCalls := [],
        written := (downloadAll env.download env.dataRetrieveResp).1,
        opened := ownsHandle dest, closed := false,
        outcome := Outcome.errDownload u } := by
  have hie := map_Id_isEmpty_eq_false env.dataRequestResp hids
  have hfe : (fulfilledIds lastResp).isEmpty = false := by
    cases hh : fulfilledIds lastResp with
    | nil => exact absurd hh hful
    | cons a t => rfl
  simp [saveWaveform, hie, hpoll, hfe, hfail]

/-- Every RPC call of a `saveWaveform` run is either the `dataRequest`
call, with the plugin installed exactly when MSEED was requested, or a
different operation with the plugin uninstalled. -/
theorem mem_map_const {α β : Type} (l : List α) (c x : β)
    (h : x ∈ l.map (fun _ => c)) : x = c := by
  rw [List.mem_map] at h
  obtain ⟨a, _, h⟩ := h
  exact h.symm

theorem saveWaveform_rpcCalls_mem (env : Env) (dest : Dest) (format : String)
    (call : String × Bool)
    (h : call ∈ (saveWaveform env dest format).rpcCalls) :
    call = ("dataRequest", format == "MSEED")
    ∨ (call.1 ≠ "dataRequest" ∧ call.2 = false) := by
  simp only [saveWaveform] at h
  split at h
  · simp at h
    left
    exact h
  · split at h
    · rcases List.mem_cons.mp h with hc | ht
      · left; exact hc
      · right; rw [mem_map_const _ _ _ ht]; exact ⟨by decide, rfl⟩
    · split at h
      · rcases List.mem_cons.mp h with hc | ht
        · left; exact hc
        · right; rw [List.eq_of_mem_replicate ht]; exact ⟨by decide, rfl⟩
      · split at h
        · rcases List.mem_append.mp h with h1 | h2
          · rcases List.mem_cons.mp h1 with hc | ht
            · left; exact hc
            · right; rw [List.eq_of_mem_replicate ht]; exact ⟨by decide, rfl⟩
          · right
            have : call = ("dataRetrieve", false) := by simpa using h2
            rw [this]; exact ⟨by decide, rfl⟩
        · rcases List.mem_append.mp h with h1 | h2
          · rcases List.mem_cons.mp h1 with hc | ht
            · left; exact hc
            · right; rw [List.eq_of_mem_replicate ht]; exact ⟨by decide, rfl⟩
          · right
            rcases (by simpa using h2 :
                call = ("dataRetrieve", false) ∨ call = ("purgeData", false))
              with hr | hp
            · rw [hr]; exact ⟨by decide, rfl⟩
            · rw [hp]; exact ⟨by decide, rfl⟩

/-- In no run does `saveWaveform` close a caller-supplied file handle:
the `fh.close()` call is guarded by `isinstance(filename, basestring)`. -/
theorem saveWaveform_handle_not_closed (env : Env) (format : String) :
    (saveWaveform env Dest.handle format).closed = false := by
  simp only [saveWaveform]
  split
  · rfl
  · split
    · rfl
    · split
      · rfl
      · split
        · rfl
        · rfl

/-- When the polling loop exits after `n` scripted responses, exactly `n`
`checkStatus` calls were made, each with the full identifier list. -/
theorem saveWaveform_checkStatusCalls (env : Env) (dest : Dest)
    (format : String) (n : Nat) (lastResp : List RoutedRequest)
    (hids : env.dataRequestResp ≠ [])
    (hpoll : pollLoop env.checkStatusScript = some (n, lastResp)) :
    (saveWaveform env dest format).checkStatusCalls
      = List.replicate n (env.dataRequestResp.map RoutedRequest.Id) := by
  have hie := map_Id_isEmpty_eq_false env.dataRequestResp hids
  simp [saveWaveform, hie, hpoll]
  split
  · rfl
  · split <;> rfl

/-! ## Claim theorems: field mapping and sign conventions -/

/-- C9, counterexample: the claim that local keywords outside the mapping
table are passed through to the outbound query is false.  Calling
`getEvents(min_magnitude=9, foobar=1)` yields an outbound query in which
`magMin=9` appears but `foobar` is absent: `_mapKwargs` copies only
keywords occurring in `MAP` and silently drops the rest. -/
theorem c9_unmapped_dropped_cex :
    (mapKwargs [("min_magnitude", Val.int 9), ("foobar", Val.int 1)]).lookup
        "foobar" = none
    ∧ (mapKwargs [("min_magnitude", Val.int 9), ("foobar", Val.int 1)]).lookup
        "magMin" = some (Val.int 9) := by
  constructor <;> rfl

/-- C9, amended: a local keyword covered by the mapping table produces
the corresponding remote key with the caller's value in the outbound
query (e.g. `min_magnitude=9` produces `magMin=9`); local keywords
outside the mapping table are silently dropped — the outbound query never
contains a key that is neither a default key (`sort`, `dir`, `limit`,
`format`) nor a remote name from the table. -/
theorem c9_mapping_amended (k : String) (v : Val)
    (rk : String) (kwargs : List (String × Val)) (k' : String)
    (hmap : MAP.lookup k = some rk)
    (hdef : k' ∉ defaultKwargs.map Prod.fst)
    (hval : k' ∉ MAP.map Prod.snd) :
    (mapKwargs [(k, v)]).lookup rk = some v
    ∧ (mapKwargs kwargs).lookup k' = none := by
  constructor
  · simp only [mapKwargs, List.foldl_cons, List.foldl_nil, hmap]
    exact lookup_insertKw_self defaultKwargs rk v
  · exact mapKwargs_foldl_lookup_none kwargs k' hval defaultKwargs
      (lookup_none_of_not_mem_fst defaultKwargs k' hdef)

/-- Witness for `c9_mapping_amended`: `min_magnitude=9` maps to
`magMin=9`, and a caller keyword `foobar` is dropped. -/
theorem c9_mapping_amended_witness :
    (mapKwargs [("min_magnitude", Val.int 9)]).lookup "magMin"
        = some (Val.int 9)
    ∧ (mapKwargs [("foobar", Val.int 1)]).lookup "foobar" = none :=
  c9_mapping_amended "min_magnitude" (Val.int 9) "magMin"
    [("foobar", Val.int 1)] "foobar" (by decide) (by decide) (by decide)

/-- C8: the Response Normalizer flips the sign of every remote depth
value `d` to the canonical negative-down `-d` (`_json2list`, line 166),
and `getEvents` negates a present canonical depth bound again before
sending (lines 249-252, including the falsy-zero branch where `-0 = 0`),
so the round trip is the identity. -/
theorem c8_depth_double_negation (d : Int) :
    json2listDepth d = -d
    ∧ depthBoundOutbound (some (json2listDepth d)) = some (-(json2listDepth d))
    ∧ depthBoundOutbound (some (json2listDepth d)) = some d := by
  refine ⟨rfl, ?_, ?_⟩ <;>
    · by_cases h : d = 0
      · simp [json2listDepth, depthBoundOutbound, h]
      · have hnd : -d ≠ 0 := by omega
        simp [json2listDepth, depthBoundOutbound, hnd]

/-- C10: when the read step of `getWaveform` fails for any reason, the
bare `except` replaces the result with an empty `Stream()`, and trimming
an empty stream leaves it empty, so `getWaveform` returns an empty
stream instead of propagating the parse error. -/
theorem c10_read_failure_empty_stream (t1 t2 : Int) :
    getWaveformModel (Except.error ()) t1 t2 = [] := rfl

/-! ## Claim theorems: waveform workflow -/

/-- Abbreviation for building a `RoutedRequest` in concrete examples. -/
def rrMk (i f d : String) (ful : Nat) : RoutedRequest :=
  { Id := i, ReadyFlag := f, StatusDescription := d, Fulfillment := ful }

/-- C4: if the `dataRequest` response contains zero routed-request
identifiers, `saveWaveform` performs zero status-check, retrieve or
purge calls, writes no bytes, and returns normally (the only RPC issued
is the submit itself). -/
theorem c4_no_routes_empty_result (env : Env) (dest : Dest) (format : String)
    (h : env.dataRequestResp = []) :
    (saveWaveform env dest format).checkStatusCalls = []
    ∧ (saveWaveform env dest format).retrieveCalls = []
    ∧ (saveWaveform env dest format).purgeCalls = []
    ∧ (saveWaveform env dest format).written = []
    ∧ (saveWaveform env dest format).outcome = Outcome.ok
    ∧ (saveWaveform env dest format).rpcCalls
        = [("dataRequest", format == "MSEED")] := by
  simp [saveWaveform, h]

/-- Environment for the C4 witness: a submit response with no routed
requests. -/
def envC4 : Env :=
  { dataRequestResp := [], checkStatusScript := [], dataRetrieveResp := [],
    download := fun _ => Except.error (), purgeOk := true }

/-- Witness for `c4_no_routes_empty_result` at a concrete environment. -/
theorem c4_no_routes_empty_result_witness :
    (saveWaveform envC4 Dest.handle "MSEED").checkStatusCalls = []
    ∧ (saveWaveform envC4 Dest.handle "MSEED").retrieveCalls = []
    ∧ (saveWaveform envC4 Dest.handle "MSEED").purgeCalls = []
    ∧ (saveWaveform envC4 Dest.handle "MSEED").written = []
    ∧ (saveWaveform envC4 Dest.handle "MSEED").outcome = Outcome.ok
    ∧ (saveWaveform envC4 Dest.handle "MSEED").rpcCalls
        = [("dataRequest", true)] :=
  c4_no_routes_empty_result envC4 Dest.handle "MSEED" rfl

/-- C2: with two-valued `ReadyFlag`s, the polling loop proceeds exactly
when every tracked routed request reports `"true"`: if the scripted
status responses split as `pre ++ resp :: rest` with every response in
`pre` containing a not-ready flag and `resp` all-ready, `saveWaveform`
issues exactly `pre.length + 1` `checkStatus` calls and the loop exits on
`resp`; and on a script whose responses all contain a not-ready flag the
loop never exits. -/
theorem c2_polling_exact_call_count (env : Env) (dest : Dest)
    (format : String) (pre : List (List RoutedRequest))
    (resp : List RoutedRequest) (rest : List (List RoutedRequest))
    (hids : env.dataRequestResp ≠ [])
    (hsplit : env.checkStatusScript = pre ++ resp :: rest)
    (hTV : ∀ p ∈ pre, ∀ r ∈ p, r.ReadyFlag = "true" ∨ r.ReadyFlag = "false")
    (hpre : ∀ p ∈ pre, ∃ r ∈ p, r.ReadyFlag ≠ "true")
    (hresp : ∀ r ∈ resp, r.ReadyFlag = "true") :
    (saveWaveform env dest format).checkStatusCalls.length = pre.length + 1
    ∧ pollLoop env.checkStatusScript = some (pre.length + 1, resp)
    ∧ (∀ script : List (List RoutedRequest),
        (∀ p ∈ script, ∀ r ∈ p,
          r.ReadyFlag = "true" ∨ r.ReadyFlag = "false") →
        (∀ p ∈ script, ∃ r ∈ p, r.ReadyFlag ≠ "true") →
        pollLoop script = none) := by
  have hpoll : pollLoop env.checkStatusScript = some (pre.length + 1, resp) := by
    rw [hsplit]
    exact pollLoop_append pre resp rest
      (fun p hp => anyFalse_eq_true_of_not_all_true p (hTV p hp) (hpre p hp))
      (anyFalse_eq_false_of_all_true resp hresp)
  refine ⟨?_, hpoll, ?_⟩
  · rw [saveWaveform_checkStatusCalls env dest format (pre.length + 1) resp
      hids hpoll]
    simp
  · intro script hTV2 hpre2
    exact pollLoop_none_of_all_have_false script
      (fun p hp => anyFalse_eq_true_of_not_all_true p (hTV2 p hp) (hpre2 p hp))

/-- A status response in which the first identifier is ready and the
second is not (C2 witness). -/
def respC2pending : List RoutedRequest :=
  [rrMk "id1" "true" "Status: OK" 100, rrMk "id2" "false" "" 0]

/-- The status response in which both identifiers are ready (C2
witness). -/
def respC2ready : List RoutedRequest :=
  [rrMk "id1" "true" "Status: OK" 100, rrMk "id2" "true" "Status: OK" 100]

/-- Environment for the C2 witness: two identifiers, the first ready
after 1 poll, the second after 3 polls. -/
def envC2 : Env :=
  { dataRequestResp := [rrMk "id1" "" "" 0, rrMk "id2" "" "" 0],
    checkStatusScript := [respC2pending, respC2pending, respC2ready],
    dataRetrieveResp := [],
    download := fun _ => Except.ok [], purgeOk := true }

/-- Witness for `c2_polling_exact_call_count`: two identifiers ready
after 1 and 3 polls yield exactly 3 `checkStatus` calls. -/
theorem c2_polling_exact_call_count_witness :
    (saveWaveform envC2 Dest.handle "MSEED").checkStatusCalls.length = 3 :=
  (c2_polling_exact_call_count envC2 Dest.handle "MSEED"
    [respC2pending, respC2pending] respC2ready [] (by decide) rfl
    (by decide) (by decide) (by decide)).1

/-- C3: an identifier is passed to the `dataRetrieve` and `purgeData`
calls only as part of the filtered list of the final status response,
and it belongs to that list iff its routed request has
`'Status: OK'` occurring in its `StatusDescription` and
`Fulfillment == 100`; identifiers failing the predicate are dropped (no
further call mentions them, and no retry occurs). -/
theorem c3_fulfillment_filter (env : Env) (dest : Dest) (format : String)
    (n : Nat) (lastResp : List RoutedRequest)
    (hids : env.dataRequestResp ≠ [])
    (hpoll : pollLoop env.checkStatusScript = some (n, lastResp)) :
    (∀ ids ∈ (saveWaveform env dest format).retrieveCalls,
        ids = fulfilledIds lastResp)
    ∧ (∀ ids ∈ (saveWaveform env dest format).purgeCalls,
        ids = fulfilledIds lastResp)
    ∧ (∀ i : String, i ∈ fulfilledIds lastResp ↔
        ∃ r ∈ lastResp, r.Id = i
          ∧ strContains "Status: OK" r.StatusDescription = true
          ∧ r.Fulfillment = 100) := by
  have hie := map_Id_isEmpty_eq_false env.dataRequestResp hids
  refine ⟨?_, ?_, ?_⟩
  · intro ids hm
    by_cases hfe : (fulfilledIds lastResp).isEmpty = true
    · simp [saveWaveform, hie, hpoll, hfe] at hm
    · rw [Bool.not_eq_true] at hfe
      cases hdl : (downloadAll env.download env.dataRetrieveResp).2 with
      | some u =>
        simp [saveWaveform, hie, hpoll, hfe, hdl] at hm
        exact hm
      | none =>
        simp [saveWaveform, hie, hpoll, hfe, hdl] at hm
        exact hm
  · intro ids hm
    by_cases hfe : (fulfilledIds lastResp).isEmpty = true
    · simp [saveWaveform, hie, hpoll, hfe] at hm
    · rw [Bool.not_eq_true] at hfe
      cases hdl : (downloadAll env.download env.dataRetrieveResp).2 with
      | some u => simp [saveWaveform, hie, hpoll, hfe, hdl] at hm
      | none =>
        simp [saveWaveform, hie, hpoll, hfe, hdl] at hm
        exact hm
  · intro i
    simp only [fulfilledIds, List.mem_map, List.mem_filter, isFulfilled,
      Bool.and_eq_true, beq_iff_eq]
    constructor
    · rintro ⟨r, ⟨hr, hsc, hf⟩, rfl⟩
      exact ⟨r, hr, rfl, hsc, hf⟩
    · rintro ⟨r, hr, rfl, hsc, hf⟩
      exact ⟨r, ⟨hr, hsc, hf⟩, rfl⟩

/-- The final status response of the C3 witness: `id1` and `id2`
fulfilled, `id3` at 80% fulfillment. -/
def respC3 : List RoutedRequest :=
  [rrMk "id1" "true" "Status: OK" 100, rrMk "id2" "true" "Status: OK" 100,
   rrMk "id3" "true" "Status: OK" 80]

/-- Environment for the C3 witness. -/
def envC3 : Env :=
  { dataRequestResp :=
      [rrMk "id1" "" "" 0, rrMk "id2" "" "" 0, rrMk "id3" "" "" 0],
    checkStatusScript := [respC3],
    dataRetrieveResp := [],
    download := fun _ => Except.ok [], purgeOk := true }

/-- Witness for `c3_fulfillment_filter`: with two fulfilled identifiers
and one at 80%, only the two fulfilled ones are passed to the retrieve
call. -/
theorem c3_fulfillment_filter_witness :
    (["id1", "id2"] : List String) = fulfilledIds respC3
    ∧ (saveWaveform envC3 Dest.handle "MSEED").retrieveCalls
        = [["id1", "id2"]] :=
  ⟨(c3_fulfillment_filter envC3 Dest.handle "MSEED" 1 respC3
      (by decide) (by decide)).1 ["id1", "id2"] (by decide), by decide⟩

/-- C5: when the run reaches the download phase and every download
succeeds, the destination sink receives the concatenation of all
payloads in response order, and the purge call is issued exactly once,
with the same fulfilled identifier list as the retrieve call. -/
theorem c5_concatenation_and_purge_once (env : Env) (dest : Dest)
    (format : String) (n : Nat) (lastResp : List RoutedRequest)
    (payload : String → List Nat)
    (hids : env.dataRequestResp ≠ [])
    (hpoll : pollLoop env.checkStatusScript = some (n, lastResp))
    (hful : fulfilledIds lastResp ≠ [])
    (hdl : ∀ url ∈ env.dataRetrieveResp,
      env.download url = Except.ok (payload url)) :
    (saveWaveform env dest format).written
        = (env.dataRetrieveResp.map payload).flatten
    ∧ (saveWaveform env dest format).purgeCalls = [fulfilledIds lastResp]
    ∧ (saveWaveform env dest format).retrieveCalls
        = [fulfilledIds lastResp] := by
  rw [saveWaveform_success env dest format n lastResp payload hids hpoll
    hful hdl]
  exact ⟨rfl, rfl, rfl⟩

/-- The final status response of the C5 witness. -/
def respC5 : List RoutedRequest :=
  [rrMk "a" "true" "Status: OK" 100, rrMk "b" "true" "Status: OK" 100]

/-- The per-URL payloads of the C5 witness. -/
def payloadC5 : String → List Nat :=
  fun u => if u == "u1" then [1, 2] else [3]

/-- Environment for the C5 witness: retrieval yields two download URLs
with payloads `[1, 2]` and `[3]`. -/
def envC5 : Env :=
  { dataRequestResp := [rrMk "a" "" "" 0, rrMk "b" "" "" 0],
    checkStatusScript := [respC5],
    dataRetrieveResp := ["u1", "u2"],
    download := fun u => Except.ok (payloadC5 u), purgeOk := true }

/-- Witness for `c5_concatenation_and_purge_once`: the sink receives
`[1, 2] ++ [3]` and the purge is issued once with both identifiers. -/
theorem c5_concatenation_and_purge_once_witness :
    (saveWaveform envC5 Dest.handle "MSEED").written = [1, 2, 3]
    ∧ (saveWaveform envC5 Dest.handle "MSEED").purgeCalls = [["a", "b"]] := by
  have h := c5_concatenation_and_purge_once envC5 Dest.handle "MSEED" 1
    respC5 payloadC5 (by decide) (by decide) (by decide)
    (fun url hu => rfl)
  exact ⟨h.1.trans (by decide), h.2.1.trans (by decide)⟩

/-- The final status response used by the C1 concrete runs. -/
def respC1 : List RoutedRequest :=
  [rrMk "a" "true" "Status: OK" 100, rrMk "b" "true" "Status: OK" 100]

/-- Environment for the C1 counterexample: the first URL downloads
(payload `[7]`), the second raises. -/
def envC1 : Env :=
  { dataRequestResp := [rrMk "a" "" "" 0, rrMk "b" "" "" 0],
    checkStatusScript := [respC1],
    dataRetrieveResp := ["u1", "u2"],
    download := fun u => if u == "u1" then Except.ok [7] else Except.error (),
    purgeOk := true }

/-- Environment for the purge-failure half of C1: all downloads succeed
but `purgeData` raises. -/
def envC1purge : Env :=
  { dataRequestResp := [rrMk "a" "" "" 0, rrMk "b" "" "" 0],
    checkStatusScript := [respC1],
    dataRetrieveResp := ["u1", "u2"],
    download := fun _ => Except.ok [7],
    purgeOk := false }

/-- C1, counterexample: the claim is false on both counts.  In `envC1`
the download phase has started and the first URL's payload `[7]` is
already written, yet the failure on the second URL propagates and
`purgeData` is never invoked; and in `envC1purge` the `purgeData` call
itself fails and that failure propagates to the caller (there is no
`try/except` around lines 568-573). -/
theorem c1_purge_cex :
    (saveWaveform envC1 Dest.handle "MSEED").written = [7]
    ∧ (saveWaveform envC1 Dest.handle "MSEED").purgeCalls = []
    ∧ (saveWaveform envC1 Dest.handle "MSEED").outcome
        = Outcome.errDownload "u2"
    ∧ (saveWaveform envC1purge Dest.handle "MSEED").purgeCalls = [["a", "b"]]
    ∧ (saveWaveform envC1purge Dest.handle "MSEED").outcome
        = Outcome.errPurge := by
  refine ⟨?_, ?_, ?_, ?_, ?_⟩ <;> rfl

/-- C1, amended: once the download phase has started, `purgeData` is
invoked (exactly once, with the fulfilled identifier list) only if every
individual download succeeds; a failing download propagates with no
purge attempted, and a `purgeData` failure also propagates to the
caller. -/
theorem c1_purge_amended (env : Env) (dest : Dest) (format : String)
    (n : Nat) (lastResp : List RoutedRequest)
    (hids : env.dataRequestResp ≠ [])
    (hpoll : pollLoop env.checkStatusScript = some (n, lastResp))
    (hful : fulfilledIds lastResp ≠ []) :
    (∀ payload : String → List Nat,
      (∀ url ∈ env.dataRetrieveResp,
        env.download url = Except.ok (payload url)) →
      (saveWaveform env dest format).purgeCalls = [fulfilledIds lastResp]
      ∧ (env.purgeOk = false →
          (saveWaveform env dest format).outcome = Outcome.errPurge))
    ∧ (∀ u : String,
        (downloadAll env.download env.dataRetrieveResp).2 = some u →
        (saveWaveform env dest format).purgeCalls = []
        ∧ (saveWaveform env dest format).outcome = Outcome.errDownload u) := by
  constructor
  · intro payload hdl
    rw [saveWaveform_success env dest format n lastResp payload hids hpoll
      hful hdl]
    refine ⟨rfl, fun hp => ?_⟩
    simp [hp]
  · intro u hu
    rw [saveWaveform_download_failure env dest format n lastResp u hids
      hpoll hful hu]
    exact ⟨rfl, rfl⟩

/-- Witness for `c1_purge_amended` at the concrete purge-failure
environment: the purge is called once with both identifiers, and its
failure propagates. -/
theorem c1_purge_amended_witness :
    (saveWaveform envC1purge Dest.handle "MSEED").purgeCalls
        = [fulfilledIds respC1]
    ∧ (saveWaveform envC1purge Dest.handle "MSEED").outcome
        = Outcome.errPurge := by
  have h := (c1_purge_amended envC1purge Dest.handle "MSEED" 1 respC1
    (by decide) (by decide) (by decide)).1 (fun _ => [7]) (fun url hu => rfl)
  exact ⟨h.1, h.2 rfl⟩

/-- C6: for every RPC call of a `saveWaveform` run, the marshalled
envelope carries the `DataFormat=MSEED` attribute exactly when the call
is the `dataRequest` submission and Mini-SEED format was requested: the
plugin is installed before `dataRequest` and removed immediately after,
so no later call of the run sees it. -/
theorem c6_mseed_plugin_scoped (env : Env) (dest : Dest) (format : String)
    (call : String × Bool)
    (h : call ∈ (saveWaveform env dest format).rpcCalls) :
    ("DataFormat", "MSEED") ∈ envelopeAttrs call
      ↔ (call.1 = "dataRequest" ∧ format = "MSEED") := by
  rcases saveWaveform_rpcCalls_mem env dest format call h with hc | ⟨h1, h2⟩
  · by_cases hf : format = "MSEED"
    · simp [envelopeAttrs, requestMSEEDPlugin, hc, hf]
    · simp [envelopeAttrs, requestMSEEDPlugin, hc, hf]
  · simp [envelopeAttrs, h2, h1]

/-- Environment for the C6 witness. -/
def envC6 : Env :=
  { dataRequestResp := [rrMk "a" "" "" 0],
    checkStatusScript := [[rrMk "a" "true" "Status: OK" 100]],
    dataRetrieveResp := [],
    download := fun _ => Except.ok [], purgeOk := true }

/-- Witness for `c6_mseed_plugin_scoped` on the `dataRequest` call of a
concrete MSEED run. -/
theorem c6_mseed_plugin_scoped_witness :
    ("DataFormat", "MSEED") ∈ envelopeAttrs ("dataRequest", true)
      ↔ (("dataRequest", true).1 = "dataRequest" ∧ "MSEED" = "MSEED") :=
  c6_mseed_plugin_scoped envC6 Dest.handle "MSEED" ("dataRequest", true)
    (by decide)

/-- Environment for the C7 counterexample: a single download URL whose
fetch raises after the output file has been opened. -/
def envC7fail : Env :=
  { dataRequestResp := [rrMk "a" "" "" 0],
    checkStatusScript := [[rrMk "a" "true" "Status: OK" 100]],
    dataRetrieveResp := ["u1"],
    download := fun _ => Except.error (), purgeOk := true }

/-- C7, counterexample: the unconditional claim that `saveWaveform`
closes the handle it opens itself for a path destination is false.  In
`envC7fail` the destination is a path, so `open(filename, "wb")` (line
562) runs, but the download exception at line 569 propagates past
`fh.close()` (line 571): the run ends with the self-opened handle still
open. -/
theorem c7_handle_leak_cex :
    (saveWaveform envC7fail (Dest.path "out.mseed") "MSEED").opened = true
    ∧ (saveWaveform envC7fail (Dest.path "out.mseed") "MSEED").closed = false
    ∧ (saveWaveform envC7fail (Dest.path "out.mseed") "MSEED").outcome
        = Outcome.errDownload "u1" := by
  refine ⟨?_, ?_, ?_⟩ <;> rfl

/-- C7, amended: on a run that completes all of its downloads, a
destination given as a path string has its handle opened and closed by
`saveWaveform` itself (if a download fails, the exception propagates
past the close and the self-opened handle leaks, as the counterexample
shows); and in every run whatsoever a caller-supplied open handle is
never closed (`fh.close()` is guarded by
`isinstance(filename, basestring)`). -/
theorem c7_handle_ownership (env : Env) (format p : String) (n : Nat)
    (lastResp : List RoutedRequest) (payload : String → List Nat)
    (hids : env.dataRequestResp ≠ [])
    (hpoll : pollLoop env.checkStatusScript = some (n, lastResp))
    (hful : fulfilledIds lastResp ≠ [])
    (hdl : ∀ url ∈ env.dataRetrieveResp,
      env.download url = Except.ok (payload url)) :
    (saveWaveform env (Dest.path p) format).opened = true
    ∧ (saveWaveform env (Dest.path p) format).closed = true
    ∧ (∀ (env2 : Env) (format2 : String),
        (saveWaveform env2 Dest.handle format2).closed = false) := by
  rw [saveWaveform_success env (Dest.path p) format n lastResp payload hids
    hpoll hful hdl]
  exact ⟨rfl, rfl, fun env2 format2 => saveWaveform_handle_not_closed env2 format2⟩

/-- Environment for the C7 witness. -/
def envC7 : Env :=
  { dataRequestResp := [rrMk "a" "" "" 0],
    checkStatusScript := [[rrMk "a" "true" "Status: OK" 100]],
    dataRetrieveResp := ["u1"],
    download := fun _ => Except.ok [9], purgeOk := true }

/-- Witness for `c7_handle_ownership`: a path destination is closed on a
completed concrete run, a handle destination is not. -/
theorem c7_handle_ownership_witness :
    (saveWaveform envC7 (Dest.path "out.mseed") "MSEED").closed = true
    ∧ (saveWaveform envC7 Dest.handle "MSEED").closed = false := by
  have h := c7_handle_ownership envC7 "MSEED" "out.mseed" 1
    [rrMk "a" "true" "Status: OK" 100] (fun _ => [9])
    (by decide) (by decide) (by decide) (fun url hu => rfl)
  exact ⟨h.2.1, h.2.2 envC7 "MSEED"⟩

end Neries
